import Mathlib

/-!
Verification of the `lumata-lakehouse` sf_user SCD pipeline.

A shallow embedding of the pipeline's core logic, together with theorems
checking the natural-language specification against it.

* `PipelineValidator` embeds
  `sf_user_pipeline/monitoring/lambda-functions/pipeline-validator.py`:
  the SCD integrity validator (`validate_scd_integrity` and the Athena
  queries it runs, evaluated here as pure functions over an in-memory
  table) and the Lambda entry point `lambda_handler`.
* `ErrorHandler` embeds the dispatch logic of
  `sf_user_pipeline/monitoring/lambda-functions/error-handler.py`.
* `ScdMerge` models the SCD Type 2 merge (Change Detector + History
  Merger).  The dbt macros realising the merge
  (`scd_type2_sf_user.sql`, `scd_merge_sf_user.sql`) are referenced by
  `dbt/tests/test_scd_macros.py` but their sources are not part of the
  repository snapshot, so the merge is modelled from the specification.

Timestamps are modelled as natural numbers; SQL result sets as lists in
a deterministic order (the one `List.dedup` fixes), which is immaterial
to the properties proved (only lengths, membership and emptiness of the
result sets are used).
-/

namespace PipelineValidator

/-- A row of the historized table `salesforce_curated.dim_sf_user_scd` as
used by the validator's queries.  The table stores a single timestamp per
version (`update_date`, modelled as `Nat`); it has no `valid_from` /
`valid_to` columns.  `dbt_updated_recent` models the query-time predicate
`_dbt_updated_at >= current_timestamp - interval '1' day`. -/
structure ScdRow where
  user_id : String
  update_date : Nat
  is_current : Bool
  is_deleted : Bool
  dbt_updated_recent : Bool
deriving DecidableEq, Repr

/-- Rows selected by `WHERE is_current = true AND is_deleted = false`
(the current-uniqueness query of `validate_scd_current_uniqueness`). -/
def currentRows (table : List ScdRow) : List ScdRow :=
  table.filter (fun r => r.is_current && !r.is_deleted)

/-- Result set of the uniqueness query:
`GROUP BY user_id HAVING COUNT(*) > 1` over `currentRows`, one row
`(user_id, current_record_count)` per violating group (SQL leaves the
group order unspecified; `List.dedup` fixes one deterministically). -/
def uniqGroups (table : List ScdRow) : List (String × Nat) :=
  let ids := (currentRows table).map (fun r => r.user_id)
  ids.dedup.filterMap (fun u =>
    let c := ids.count u
    if 1 < c then some (u, c) else none)

/-- The dict returned by `validate_scd_current_uniqueness`. -/
structure UniqRes where
  passed : Bool
  duplicate_current_records : Nat
  error_count : Nat
  details : List (String × Nat)
deriving DecidableEq, Repr

/-- Embeds `validate_scd_current_uniqueness` (pipeline-validator.py lines
340-370), evaluated over an in-memory table.  `duplicate_users =
len(result)`, `passed = duplicate_users == 0`, `details = result[:10]`. -/
def validate_scd_current_uniqueness (table : List ScdRow) : UniqRes :=
  let result := uniqGroups table
  { passed := result.length == 0
    duplicate_current_records := result.length
    error_count := result.length
    details := result.take 10 }

/-- Rows selected by `WHERE is_deleted = false` in the historical-integrity
query. -/
def histRows (table : List ScdRow) : List ScdRow :=
  table.filter (fun r => !r.is_deleted)

/-- Insert a row into a list sorted by `update_date` (stable: equal dates
keep their original relative order). -/
def insertByDate (r : ScdRow) : List ScdRow → List ScdRow
  | [] => [r]
  | x :: xs =>
    if r.update_date < x.update_date then r :: x :: xs else x :: insertByDate r xs

/-- Stable sort by `update_date`, modelling `ORDER BY update_date` inside
the window functions. -/
def sortByDate : List ScdRow → List ScdRow
  | [] => []
  | x :: xs => insertByDate x (sortByDate xs)

/-- Entity ids occurring among the non-deleted rows, one per partition of
`PARTITION BY user_id` (order as fixed by `List.dedup`). -/
def entityIds (table : List ScdRow) : List String :=
  ((histRows table).map (fun r => r.user_id)).dedup

/-- The versions of one entity among the non-deleted rows, ordered by
`update_date`. -/
def entityVersions (table : List ScdRow) (u : String) : List ScdRow :=
  sortByDate ((histRows table).filter (fun r => r.user_id == u))

/-- The `gap_in_history` rows of the query: scanning an entity's versions in
`update_date` order, a row is flagged when its `LAG(update_date)` is
non-NULL, differs from its own `update_date`, and the row has
`is_current = false`. -/
def gapCount : List ScdRow → Nat
  | [] => 0
  | [_] => 0
  | p :: c :: rest =>
    (if c.update_date ≠ p.update_date ∧ c.is_current = false then 1 else 0)
      + gapCount (c :: rest)

/-- The `current_flag_issue` rows of the query: a row with `is_current = true`
whose `LEAD(update_date)` is non-NULL (i.e. a current row that is not the
last version of its entity). -/
def currentFlagCount : List ScdRow → Nat
  | [] => 0
  | [_] => 0
  | c :: d :: rest =>
    (if c.is_current then 1 else 0) + currentFlagCount (d :: rest)

/-- Total `gap_in_history` count over all entities. -/
def histGapTotal (table : List ScdRow) : Nat :=
  (entityIds table).foldr (fun u acc => gapCount (entityVersions table u) + acc) 0

/-- Total `current_flag_issue` count over all entities. -/
def histCurrentFlagTotal (table : List ScdRow) : Nat :=
  (entityIds table).foldr (fun u acc => currentFlagCount (entityVersions table u) + acc) 0

/-- The dict returned by `validate_scd_historical_integrity`;
`integrity_issues` is the grouped result set (`issue_type`, `issue_count`),
containing only the groups that occur. -/
structure HistRes where
  passed : Bool
  error_count : Nat
  integrity_issues : List (String × Nat)
deriving DecidableEq, Repr

/-- Embeds `validate_scd_historical_integrity` (pipeline-validator.py lines
372-431), evaluated over an in-memory table. -/
def validate_scd_historical_integrity (table : List ScdRow) : HistRes :=
  let g := histGapTotal table
  let c := histCurrentFlagTotal table
  { passed := g + c == 0
    error_count := g + c
    integrity_issues :=
      (if 0 < g then [("gap_in_history", g)] else [])
        ++ (if 0 < c then [("current_flag_issue", c)] else []) }

/-- The statistics dict of `get_scd_processing_stats` (lines 433-476). -/
structure ScdStats where
  records_created : Nat
  records_updated : Nat
  records_deleted : Nat
deriving DecidableEq, Repr

/-- Embeds `get_scd_processing_stats`: `records_created` approximated by the
recently-updated count, `records_updated` hard-coded to 0, and
`records_deleted` the count of `is_deleted = true` rows. -/
def get_scd_processing_stats (table : List ScdRow) : ScdStats :=
  { records_created := (table.filter (fun r => r.dbt_updated_recent)).length
    records_updated := 0
    records_deleted := (table.filter (fun r => r.is_deleted)).length }

/-- The `tests_failed` value found in the dbt test payload.  Python reads
`payload.get('tests_failed', 0)` and evaluates `tests_failed > 0`; a
non-numeric value makes that comparison raise `TypeError`, which is the
reachable way into `validate_scd_integrity`'s `except` branch. -/
inductive TestsFailed where
  | int (n : Int)
  | nonNum (s : String)
deriving DecidableEq, Repr

/-- The `Payload` dict of `dbt_test_result` (absent `tests_failed` key is
modelled as `int 0`, the Python default). -/
structure DbtPayload where
  tests_failed : TestsFailed
deriving DecidableEq, Repr

/-- Outcome of the dbt-result block (lines 175-181): `none` means the
`tests_failed > 0` comparison raised (exception path); otherwise
`some (validation_passed_so_far, validation_errors_so_far)`. -/
def dbtOutcome : Option DbtPayload → Option (Bool × Int)
  | some { tests_failed := TestsFailed.nonNum _ } => none
  | some { tests_failed := TestsFailed.int n } =>
      if 0 < n then some (false, n) else some (true, 0)
  | none => some (true, 0)

/-- The dict returned by `validate_scd_integrity`.  `current_uniqueness`
and `historical_integrity` are the entries of `validation_details`
(`none` when the run raised before populating them). -/
structure ScdIntegrityResult where
  validation_passed : Bool
  integrity_score : ℚ
  validations_performed : List String
  validation_errors : Int
  scd_records_created : Nat
  scd_records_updated : Nat
  scd_records_deleted : Nat
  current_uniqueness : Option UniqRes
  historical_integrity : Option HistRes
deriving DecidableEq, Repr

/-- Python's `sum(1 for v in validation_results['validation_details'].values() if
v['passed'])`: the number of recorded check results that passed. -/
def detailsPassedCount (u : Option UniqRes) (h : Option HistRes) : Nat :=
  (match u with | some ur => if ur.passed then 1 else 0 | none => 0)
    + (match h with | some hr => if hr.passed then 1 else 0 | none => 0)

/-- Embeds `validate_scd_integrity` (pipeline-validator.py lines 158-221) over an
in-memory table.  On the exception path (non-numeric `tests_failed`,
raising before either check is appended) the partially built dict keeps
its initial fields and the `except` branch sets `validation_passed =
False`, increments `validation_errors`, and sets `integrity_score = 0`. -/
def validate_scd_integrity (dbt : Option DbtPayload) (table : List ScdRow) :
    ScdIntegrityResult :=
  match dbtOutcome dbt with
  | none =>
    { validation_passed := false
      integrity_score := 0
      validations_performed := []
      validation_errors := 0 + 1
      scd_records_created := 0
      scd_records_updated := 0
      scd_records_deleted := 0
      current_uniqueness := none
      historical_integrity := none }
  | some (p0, e0) =>
    let uniq := validate_scd_current_uniqueness table
    let hist := validate_scd_historical_integrity table
    let stats := get_scd_processing_stats table
    let performed := ["scd_current_uniqueness", "scd_historical_integrity"]
    let errors := e0
      + (if uniq.passed then 0 else (uniq.error_count : Int))
      + (if hist.passed then 0 else (hist.error_count : Int))
    let passedCount := detailsPassedCount (some uniq) (some hist)
    { validation_passed := p0 && uniq.passed && hist.passed
      integrity_score :=
        if 0 < performed.length then
          ((passedCount : ℚ) / (performed.length : ℚ)) * 100
        else 100
      validations_performed := performed
      validation_errors := errors
      scd_records_created := stats.records_created
      scd_records_updated := stats.records_updated
      scd_records_deleted := stats.records_deleted
      current_uniqueness := some uniq
      historical_integrity := some hist }

/-- An entry of `failed_validations`.  The Python code stores formatted
message strings; here each failure is a tagged value carrying the data
interpolated into the message (the rendering itself carries no logic). -/
inductive ValErr where
  | glueJobFailedState (state : String)
  | belowMinimumRecords (records : Int)
  | dataNotFresh (hoursSince : ℚ)
  | noRecentExtraction
  | missingIdValues (missing : Nat)
  | missingNameValues (missing : Nat)
  | noRecordsFound
  | validationError (msg : String)
deriving DecidableEq, Repr

/-- The `--records-processed` Glue job argument as read by
`int(arguments.get('--records-processed', 0))`: an absent key is the
default `int 0`; a non-numeric string makes `int()` raise `ValueError`. -/
inductive PyIntArg where
  | int (n : Int)
  | nonNum (s : String)
deriving DecidableEq, Repr

/-- The `glue_job_result` payload of a validation event. -/
structure GlueJobResult where
  jobRunState : Option String
  recordsProcessed : PyIntArg
deriving DecidableEq, Repr

instance : Inhabited GlueJobResult := ⟨{ jobRunState := none, recordsProcessed := .int 0 }⟩

/-- A row of the raw table `salesforce_raw.sf_user` as seen by the
freshness / required-fields queries.  `extracted_hours_ago` is the age of
`_extracted_at` relative to query time, in hours (so the one-day window is
`≤ 24` and the freshness bound `≤ 6`); the `*_present` flags model
non-NULL-ness of the counted columns.  The display-only `field_coverage`
percentages for `division` / `audit_phase__c` are not modelled. -/
structure RawRow where
  extracted_hours_ago : ℚ
  id_present : Bool
  name_present : Bool
deriving DecidableEq, Repr

/-- Rows within the `_extracted_at >= current_timestamp - interval '1' day`
window. -/
def recentRaw (raw : List RawRow) : List RawRow :=
  raw.filter (fun r => r.extracted_hours_ago ≤ 24)

/-- The aggregate `MAX(_extracted_at)` expressed as the minimum age in hours. -/
def minHoursAgo : List RawRow → Option ℚ
  | [] => none
  | r :: rest =>
    match minHoursAgo rest with
    | none => some r.extracted_hours_ago
    | some m => some (min r.extracted_hours_ago m)

/-- The dict returned by `validate_data_freshness`. -/
structure FreshRes where
  passed : Bool
  total_records : Nat
  hours_since_extraction : Option ℚ
  errors : List ValErr
deriving DecidableEq, Repr

/-- Embeds `validate_data_freshness` (lines 223-279).  The SQL aggregate always
yields one row, so the `No data found in raw table` branch and the
Athena-failure `except` branch (infrastructure errors) are outside this
pure model. -/
def validate_data_freshness (raw : List RawRow) : FreshRes :=
  let recent := recentRaw raw
  match minHoursAgo recent with
  | some h =>
    if h ≤ 6 ∧ 0 < recent.length then
      { passed := true, total_records := recent.length
        hours_since_extraction := some h, errors := [] }
    else
      { passed := false, total_records := recent.length
        hours_since_extraction := some h, errors := [ValErr.dataNotFresh h] }
  | none =>
    { passed := false, total_records := recent.length
      hours_since_extraction := none, errors := [ValErr.noRecentExtraction] }

/-- The dict returned by `validate_required_fields`. -/
structure ReqRes where
  passed : Bool
  total_records : Nat
  errors : List ValErr
deriving DecidableEq, Repr

/-- Embeds `validate_required_fields` (lines 281-338): `id` and `name` must be
non-NULL on every recent row; `division` and `audit_phase__c` may be NULL
and produce no errors. -/
def validate_required_fields (raw : List RawRow) : ReqRes :=
  let recent := recentRaw raw
  let total := recent.length
  let idCount := (recent.filter (fun r => r.id_present)).length
  let nameCount := (recent.filter (fun r => r.name_present)).length
  let errs : List ValErr :=
    if total == 0 then [ValErr.noRecordsFound]
    else
      (if idCount ≠ total then [ValErr.missingIdValues (total - idCount)] else [])
        ++ (if nameCount ≠ total then [ValErr.missingNameValues (total - nameCount)] else [])
  { passed := errs.isEmpty, total_records := total, errors := errs }

/-- The dict returned by `validate_glue_job_results`. -/
structure GlueValidationResult where
  validation_passed : Bool
  data_quality_passed : Bool
  validations_performed : List String
  failed_validations : List ValErr
  data_quality_score : ℚ
  records_processed : Int
  data_freshness : Option FreshRes
  required_fields : Option ReqRes
deriving DecidableEq, Repr

/-- Embeds `validate_glue_job_results` (lines 81-156).  A non-`SUCCEEDED` state
returns early; a non-numeric `--records-processed` raises inside the `try`
and the function's `except` branch returns the partially built dict (only
`glue_job_status` performed, score still at its initial 100) with
`validation_passed = False`. -/
def validate_glue_job_results (g : GlueJobResult) (raw : List RawRow) :
    GlueValidationResult :=
  let job_run_state := g.jobRunState.getD "UNKNOWN"
  if job_run_state ≠ "SUCCEEDED" then
    { validation_passed := false, data_quality_passed := false
      validations_performed := ["glue_job_status"]
      failed_validations := [ValErr.glueJobFailedState job_run_state]
      data_quality_score := 100, records_processed := 0
      data_freshness := none, required_fields := none }
  else
    match g.recordsProcessed with
    | .nonNum s =>
      { validation_passed := false, data_quality_passed := false
        validations_performed := ["glue_job_status"]
        failed_validations := [ValErr.validationError s]
        data_quality_score := 100, records_processed := 0
        data_freshness := none, required_fields := none }
    | .int records =>
      let minFailed : List ValErr :=
        if records < 100 then [ValErr.belowMinimumRecords records] else []
      let fresh := validate_data_freshness raw
      let req := validate_required_fields raw
      let failed := minFailed ++ (if fresh.passed then [] else fresh.errors)
        ++ (if req.passed then [] else req.errors)
      let performed := ["glue_job_status", "minimum_record_count",
        "data_freshness", "required_fields"]
      let score : ℚ :=
        ((performed.length : ℚ) - (failed.length : ℚ)) / (performed.length : ℚ) * 100
      { validation_passed := decide (95 ≤ score)
        data_quality_passed := minFailed.isEmpty && fresh.passed && req.passed
        validations_performed := performed
        failed_validations := failed
        data_quality_score := score
        records_processed := records
        data_freshness := some fresh
        required_fields := some req }

/-- Python's `os.environ.get('ENVIRONMENT', 'dev')` with the variable unset. -/
def DEFAULT_ENVIRONMENT : String := "dev"

/-- A validation request event for `lambda_handler` (missing keys are
`none`; `event.get` supplies the defaults). -/
structure ValidatorEvent where
  validation_type : Option String
  execution_id : Option String
  environment : Option String
  glue_job_result : Option GlueJobResult
  dbt_test_result : Option DbtPayload
deriving DecidableEq, Repr

/-- The dict returned by the validator's `lambda_handler`; the routed
validator's own fields sit in `glue` / `scd`, and `none` marks keys the
returning path did not set. -/
structure LambdaResult where
  validation_passed : Bool
  error : Option String
  glue : Option GlueValidationResult
  scd : Option ScdIntegrityResult
  validation_type : Option String
  execution_id : Option String
  environment : Option String
  validated_at : Option String
deriving DecidableEq, Repr

/-- The body of `lambda_handler`'s `try` block (lines 42-70).  In this
pure model its result is always `Except.ok`: both routed validators catch
their own internal exceptions, so no raise escapes to the handler.
`now` is the `datetime.now(timezone.utc).isoformat()` timestamp. -/
def lambda_handler_try (ev : ValidatorEvent) (raw : List RawRow)
    (scdTable : List ScdRow) (now : String) : Except String LambdaResult :=
  let vt := ev.validation_type.getD "unknown"
  let eid := ev.execution_id.getD "unknown"
  let env := ev.environment.getD DEFAULT_ENVIRONMENT
  let base : LambdaResult :=
    if vt == "glue_job_results" then
      let g := validate_glue_job_results (ev.glue_job_result.getD default) raw
      { validation_passed := g.validation_passed, error := none
        glue := some g, scd := none, validation_type := none
        execution_id := none, environment := none, validated_at := none }
    else if vt == "scd_integrity" then
      let s := validate_scd_integrity ev.dbt_test_result scdTable
      { validation_passed := s.validation_passed, error := none
        glue := none, scd := some s, validation_type := none
        execution_id := none, environment := none, validated_at := none }
    else
      { validation_passed := false
        error := some ("Unknown validation type: " ++ vt)
        glue := none, scd := none, validation_type := none
        execution_id := none, environment := none, validated_at := none }
  Except.ok { base with
    validation_type := some vt
    execution_id := some eid
    environment := some env
    validated_at := some now }

/-- The `except` branch of `lambda_handler` (lines 72-79): a
`validation_passed = False` dict carrying the error text, `execution_id`
and `validation_type` (but no `environment` / `validated_at`). -/
def lambda_handler_error_result (e : String) (ev : ValidatorEvent) : LambdaResult :=
  { validation_passed := false, error := some e
    glue := none, scd := none
    validation_type := some (ev.validation_type.getD "unknown")
    execution_id := some (ev.execution_id.getD "unknown")
    environment := none, validated_at := none }

/-- Embeds `lambda_handler` (lines 30-79): run the `try` body and convert any
exception into the `except`-branch result, so a dict is always returned. -/
def lambda_handler (ev : ValidatorEvent) (raw : List RawRow)
    (scdTable : List ScdRow) (now : String) : LambdaResult :=
  match lambda_handler_try ev raw scdTable now with
  | .ok r => r
  | .error e => lambda_handler_error_result e ev

/-- Adjacent version pairs of an ordered version list (`LAG` pairs). -/
def adjacentPairs (vs : List ScdRow) : List (ScdRow × ScdRow) :=
  vs.zip vs.tail

/-- Claim-side definition (C2, from the spec's words): the entity ids the
current-uniqueness check is said to flag — among entities with at least
one non-deleted version, those whose number of `is_current = true` rows
differs from 1. -/
def claimUniquenessFlagged (table : List ScdRow) : List String :=
  ((histRows table).map (fun r => r.user_id)).dedup.filter
    (fun u => decide ((table.filter (fun r => r.user_id == u && r.is_current)).length ≠ 1))

/-- Claim-side definition (C3, from the spec's words), read on the stored
schema.  The table keeps one timestamp per version (`update_date`) and no
`valid_to` column; under the spec's own correspondence (§3: `valid_from`
is the version-start timestamp, and `is_current` is derived from
`valid_to` being open-ended) a closed version's `valid_to` is by
construction the next version's `valid_from`, so the clause
`valid_to(n) ≠ valid_from(n+1)` can never hold, and the non-final
open-ended versions are exactly the non-final rows with
`is_current = true`. -/
def claimTemporalViolationCount (table : List ScdRow) : Nat :=
  ((entityIds table).map (fun u =>
    (((entityVersions table u).dropLast).filter (fun r => r.is_current)).length)).sum

/-- A table whose single entity `E1` has one non-deleted version and no
current row at all. -/
def zeroCurrentTable : List ScdRow :=
  [{ user_id := "E1", update_date := 1, is_current := false,
     is_deleted := false, dbt_updated_recent := true }]

/-- A perfectly contiguous three-version history of one entity: two
superseded versions and a final current one, with pairwise distinct
`update_date`s. -/
def threeVersionTable : List ScdRow :=
  [{ user_id := "u1", update_date := 1, is_current := false,
     is_deleted := false, dbt_updated_recent := true },
   { user_id := "u1", update_date := 2, is_current := false,
     is_deleted := false, dbt_updated_recent := true },
   { user_id := "u1", update_date := 3, is_current := true,
     is_deleted := false, dbt_updated_recent := true }]

/-- Scenario E's table: two `is_current = true, is_deleted = false` rows
for `E1`, plus a single-current-row entity `E2`. -/
def duplicateCurrentTable : List ScdRow :=
  [{ user_id := "E1", update_date := 1, is_current := true,
     is_deleted := false, dbt_updated_recent := true },
   { user_id := "E1", update_date := 2, is_current := true,
     is_deleted := false, dbt_updated_recent := true },
   { user_id := "E2", update_date := 2, is_current := true,
     is_deleted := false, dbt_updated_recent := true },
   { user_id := "E2", update_date := 1, is_current := false,
     is_deleted := false, dbt_updated_recent := true }]

/-- A validation request with a validation type neither router branch
handles. -/
def sampleUnknownEvent : ValidatorEvent :=
  { validation_type := some "bogus_type", execution_id := some "exec-1",
    environment := none, glue_job_result := none, dbt_test_result := none }

end PipelineValidator

namespace ErrorHandler

/-- The `error_details` dict of an error event (keys `Cause`, `Error`). -/
structure ErrDetails where
  cause : Option String
  errorText : Option String
deriving DecidableEq, Repr

/-- The `Payload` of `validation_result` used by
`handle_data_quality_failure`.  `data_quality_score` is carried as its
string rendering (it is only interpolated into messages). -/
structure DQPayload where
  data_quality_score : Option String
  failed_validations : List String
deriving DecidableEq, Repr

/-- An error-handler event.  `validation_result` missing or lacking a
`Payload` key both collapse to `none` (Python falls back to `{}`). -/
structure ErrEvent where
  error_details : Option ErrDetails
  validation_payload : Option DQPayload
deriving DecidableEq, Repr

/-- The `error_info` dict every handler returns.  `failed_validations` and
`data_quality_score` exist only in `handle_data_quality_failure`'s dict
and default to empty / `none` elsewhere. -/
structure ErrorInfo where
  error_category : String
  severity : String
  cause : String
  error_message : String
  failed_validations : List String
  data_quality_score : Option String
  recommended_actions : List String
  investigation_steps : List String
deriving DecidableEq, Repr

/-- Python's `event.get('error_details', {}).get('Cause', default)`. -/
def causeOr (ev : ErrEvent) (dflt : String) : String :=
  ((ev.error_details.map (fun d => d.cause)).join).getD dflt

/-- Python's `event.get('error_details', {}).get('Error', default)`. -/
def errorOr (ev : ErrEvent) (dflt : String) : String :=
  ((ev.error_details.map (fun d => d.errorText)).join).getD dflt

/-- Embeds `handle_glue_job_failure` (error-handler.py lines 92-117). -/
def handle_glue_job_failure (ev : ErrEvent) (_environment : String) : ErrorInfo :=
  { error_category := "glue_job_failure"
    severity := "HIGH"
    cause := causeOr ev "Unknown Glue job failure"
    error_message := errorOr ev "Glue job execution failed"
    failed_validations := [], data_quality_score := none
    recommended_actions := [
      "Check Glue job logs in CloudWatch",
      "Verify Salesforce API connectivity and credentials",
      "Check S3 bucket permissions and Iceberg table configuration",
      "Review Glue job script for syntax errors",
      "Verify AWS Secrets Manager access for Salesforce credentials"]
    investigation_steps := [
      "Review /aws/glue/jobs/sf-user-ingestion-job log group",
      "Check Salesforce API rate limits and quotas",
      "Verify S3 bucket access and Iceberg table schema",
      "Test Salesforce connection manually"] }

/-- Embeds `handle_validation_failure` (lines 119-142). -/
def handle_validation_failure (ev : ErrEvent) (_environment : String) : ErrorInfo :=
  { error_category := "validation_failure"
    severity := "MEDIUM"
    cause := causeOr ev "Data validation failed"
    error_message := errorOr ev "Pipeline validation step failed"
    failed_validations := [], data_quality_score := none
    recommended_actions := [
      "Check validation Lambda function logs",
      "Review data quality validation rules",
      "Verify Iceberg table data integrity",
      "Check for schema changes in source data"]
    investigation_steps := [
      "Review /aws/lambda/sf-user-pipeline-validator logs",
      "Query raw Iceberg tables for data anomalies",
      "Check Salesforce schema changes",
      "Validate data volume and distribution"] }

/-- Embeds `handle_data_quality_failure` (lines 144-170). -/
def handle_data_quality_failure (ev : ErrEvent) (_environment : String) : ErrorInfo :=
  let payload := ev.validation_payload
  let scoreStr := (payload.map (fun p => p.data_quality_score)).join
  { error_category := "data_quality_failure"
    severity := "HIGH"
    cause := "Data quality validation failed - data does not meet quality thresholds"
    error_message := "Data quality score: " ++ scoreStr.getD "unknown" ++ "%"
    failed_validations := (payload.map (fun p => p.failed_validations)).getD []
    data_quality_score := scoreStr
    recommended_actions := [
      "Review failed data quality validations",
      "Check for data corruption in source system",
      "Verify field mappings and transformations",
      "Review data quality thresholds and rules"]
    investigation_steps := [
      "Query raw sf_user data for anomalies",
      "Check Salesforce data quality at source",
      "Review dbt test results and failures",
      "Analyze data distribution and patterns"] }

/-- Embeds `handle_dbt_run_failure` (lines 172-195). -/
def handle_dbt_run_failure (ev : ErrEvent) (_environment : String) : ErrorInfo :=
  { error_category := "dbt_run_failure"
    severity := "HIGH"
    cause := causeOr ev "dbt model execution failed"
    error_message := errorOr ev "dbt run command failed"
    failed_validations := [], data_quality_score := none
    recommended_actions := [
      "Check dbt runner Lambda function logs",
      "Review dbt model SQL for syntax errors",
      "Verify Athena/Glue Catalog connectivity",
      "Check Iceberg table permissions and configuration"]
    investigation_steps := [
      "Review /aws/lambda/sf-user-dbt-runner logs",
      "Test dbt models individually",
      "Check Athena query history for errors",
      "Verify dbt profiles and connection settings"] }

/-- Embeds `handle_dbt_test_failure` (lines 197-220). -/
def handle_dbt_test_failure (ev : ErrEvent) (_environment : String) : ErrorInfo :=
  { error_category := "dbt_test_failure"
    severity := "MEDIUM"
    cause := causeOr ev "dbt tests failed"
    error_message := errorOr ev "dbt test command failed"
    failed_validations := [], data_quality_score := none
    recommended_actions := [
      "Review failed dbt test results",
      "Check data quality in transformed tables",
      "Verify SCD Type 2 logic correctness",
      "Review test thresholds and expectations"]
    investigation_steps := [
      "Run dbt tests individually to identify failures",
      "Query dim_sf_user_scd table for data issues",
      "Check SCD integrity and currency flags",
      "Review test definitions and logic"] }

/-- Embeds `handle_scd_validation_failure` (lines 222-245). -/
def handle_scd_validation_failure (ev : ErrEvent) (_environment : String) : ErrorInfo :=
  { error_category := "scd_validation_failure"
    severity := "HIGH"
    cause := causeOr ev "SCD Type 2 validation failed"
    error_message := errorOr ev "SCD integrity validation failed"
    failed_validations := [], data_quality_score := none
    recommended_actions := [
      "Check SCD Type 2 logic in dbt models",
      "Verify historical tracking for Division and Audit_Phase__c",
      "Review SCD integrity test results",
      "Check for duplicate or missing SCD records"]
    investigation_steps := [
      "Query dim_sf_user_scd for SCD integrity issues",
      "Check is_current flag management",
      "Verify SCD record versioning and dating",
      "Review SCD macro logic and implementation"] }

/-- Python's `str(error_details)`: the rendering of the (possibly empty)
`error_details` dict.  Double quotes stand in for Python's single-quote
repr; the text carries no logic. -/
def errDetailsRepr : Option ErrDetails → String
  | none => "\x7b\x7d"
  | some d =>
    let parts :=
      (match d.cause with
       | some c => ["\"Cause\": \"" ++ c ++ "\""]
       | none => [])
        ++ (match d.errorText with
            | some e2 => ["\"Error\": \"" ++ e2 ++ "\""]
            | none => [])
    "\x7b" ++ String.intercalate ", " parts ++ "\x7d"

/-- Embeds `handle_unknown_error` (lines 247-270). -/
def handle_unknown_error (ev : ErrEvent) (_environment : String) : ErrorInfo :=
  { error_category := "unknown_error"
    severity := "MEDIUM"
    cause := "Unknown or unclassified pipeline error"
    error_message := errDetailsRepr ev.error_details
    failed_validations := [], data_quality_score := none
    recommended_actions := [
      "Review Step Functions execution logs",
      "Check all Lambda function logs",
      "Verify pipeline configuration and permissions",
      "Contact support team for assistance"]
    investigation_steps := [
      "Review Step Functions execution history",
      "Check CloudWatch logs for all pipeline components",
      "Verify AWS service status and quotas",
      "Review recent pipeline or infrastructure changes"] }

/-- The `handlers` dict of `get_error_handler` (lines 79-90), as an
association list in source order. -/
def handlers : List (String × (ErrEvent → String → ErrorInfo)) :=
  [("glue_job_failure", handle_glue_job_failure),
   ("validation_failure", handle_validation_failure),
   ("data_quality_failure", handle_data_quality_failure),
   ("dbt_run_failure", handle_dbt_run_failure),
   ("dbt_test_failure", handle_dbt_test_failure),
   ("scd_validation_failure", handle_scd_validation_failure)]

/-- Embeds `get_error_handler`: `handlers.get(error_type, handle_unknown_error)`. -/
def get_error_handler (error_type : String) : ErrEvent → String → ErrorInfo :=
  match handlers.lookup error_type with
  | some h => h
  | none => handle_unknown_error

/-- The six known error-type strings, in the dict's order. -/
def knownErrorTypes : List String :=
  ["glue_job_failure", "validation_failure", "data_quality_failure",
   "dbt_run_failure", "dbt_test_failure", "scd_validation_failure"]

/-- An error event with no optional payloads. -/
def sampleErrEvent : ErrEvent :=
  { error_details := none, validation_payload := none }

end ErrorHandler

namespace ScdMerge

/-- Modelled from the spec: the Snapshot Record of §3.  The dbt merge
macros (`scd_type2_sf_user.sql`, `scd_merge_sf_user.sql`) named by
`dbt/tests/test_scd_macros.py` are not among the repository sources, so
the Change Detector and History Merger are modelled from §3-§5 of the
spec.  Monitored fields are `division` and `audit_phase`; `observed_at`
is a timestamp; `active` is the source's activity flag. -/
structure Snapshot where
  entity_id : String
  division : Option String
  audit_phase : Option String
  observed_at : Nat
  active : Bool
deriving DecidableEq, Repr

/-- Modelled from the spec: the Historized Record of §3.  `valid_to =
none` is the open-ended sentinel; `is_current` is stored redundantly. -/
structure Version where
  entity_id : String
  division : Option String
  audit_phase : Option String
  valid_from : Nat
  valid_to : Option Nat
  is_current : Bool
  is_deleted : Bool
deriving DecidableEq, Repr

/-- The historized table. -/
abbrev HTable := List Version

/-- The Change Detector's classification (§4.1). -/
inductive ChangeClass where
  | NEW | UNCHANGED | CHANGED | REACTIVATED | DEACTIVATED
deriving DecidableEq, Repr

/-- What the merger did with one snapshot: a classification, or the
`StaleSnapshotDiscarded` notice of §4.2/§5 (informational, not a
classification). -/
inductive MergeAction where
  | classified (c : ChangeClass)
  | staleDiscarded
deriving DecidableEq, Repr

/-- The entity's current Historized Record: the first row carrying
`is_current = true` for the entity. -/
def currentOf (t : HTable) (eid : String) : Option Version :=
  t.find? (fun v => v.entity_id == eid && v.is_current)

/-- Exact, case-sensitive equality of the monitored fields (§4.1). -/
def fieldsEq (s : Snapshot) (v : Version) : Bool :=
  v.division == s.division && v.audit_phase == s.audit_phase

/-- Modelled from the spec: the Change Detector (§4.1).  `NEW` when no
current row exists; otherwise the `REACTIVATED` / `DEACTIVATED`
transitions (deletion flag against the snapshot's activity) take
precedence over the monitored-field comparison, which yields `UNCHANGED`
or `CHANGED`. -/
def classify (s : Snapshot) : Option Version → ChangeClass
  | none => .NEW
  | some c =>
    if c.is_deleted && s.active then .REACTIVATED
    else if !c.is_deleted && !s.active then .DEACTIVATED
    else if fieldsEq s c then .UNCHANGED
    else .CHANGED

/-- The freshly inserted version for a snapshot: `valid_from =
observed_at`, open `valid_to`, `is_current = true` (§4.2). -/
def newVersionOf (s : Snapshot) (del : Bool) : Version :=
  { entity_id := s.entity_id
    division := s.division
    audit_phase := s.audit_phase
    valid_from := s.observed_at
    valid_to := none
    is_current := true
    is_deleted := del }

/-- Close the entity's current version(s): `valid_to := observed_at`,
`is_current := false` (§4.2), realised set-based as an SQL merge would. -/
def closeEntity (t : HTable) (eid : String) (ts : Nat) : HTable :=
  t.map (fun v =>
    if v.entity_id == eid && v.is_current then
      { v with valid_to := some ts, is_current := false }
    else v)

/-- Number of rows `closeEntity` actually closes. -/
def closedCount (t : HTable) (eid : String) : Nat :=
  (t.filter (fun v => v.entity_id == eid && v.is_current)).length

/-- Result of merging one snapshot: the new table, the action taken, and
the number of row writes (closed rows plus inserted rows). -/
structure MergeStep where
  table : HTable
  action : MergeAction
  writes : Nat
deriving Repr

/-- Modelled from the spec: one merge unit (§4.2, §5).  A snapshot older
than the current row's `valid_from` is discarded (`StaleSnapshotDiscarded`,
§5); `NEW` inserts with `is_deleted = false` (§4.2, even for an inactive
snapshot — the spec fixes `false` for `NEW`); `UNCHANGED` writes nothing;
the remaining classes close the prior current version(s) and insert a new
version whose `is_deleted` follows the `DEACTIVATED`/`REACTIVATED`
transition (`!s.active`, which for plain `CHANGED` coincides with the
prior version's flag). -/
def mergeOne (t : HTable) (s : Snapshot) : MergeStep :=
  match currentOf t s.entity_id with
  | none =>
    { table := t ++ [newVersionOf s false]
      action := .classified .NEW
      writes := 1 }
  | some c =>
    if s.observed_at < c.valid_from then
      { table := t, action := .staleDiscarded, writes := 0 }
    else
      match classify s (some c) with
      | .UNCHANGED => { table := t, action := .classified .UNCHANGED, writes := 0 }
      | cls =>
        { table := closeEntity t s.entity_id s.observed_at ++ [newVersionOf s (!s.active)]
          action := .classified cls
          writes := closedCount t s.entity_id + 1 }

/-- The snapshot with the greatest `observed_at` in a list (ties keep the
earlier element; the spec's tie-break in §4.2 only fixes the case of
distinct `observed_at`). -/
def pickLatest : List Snapshot → Option Snapshot
  | [] => none
  | s :: rest =>
    match pickLatest rest with
    | none => some s
    | some b => some (if b.observed_at > s.observed_at then b else s)

/-- The batch's entity ids, one per entity (order as fixed by
`List.dedup`; per-entity merge units are order-independent, §5). -/
def batchEntityIds (batch : List Snapshot) : List String :=
  (batch.map (fun s => s.entity_id)).dedup

/-- The winning snapshot for one entity (§4.2 tie-break: only the
greatest `observed_at` is merged). -/
def winnerFor (batch : List Snapshot) (eid : String) : Option Snapshot :=
  pickLatest (batch.filter (fun s => s.entity_id == eid))

/-- One winning snapshot per entity of the batch. -/
def winners (batch : List Snapshot) : List Snapshot :=
  (batchEntityIds batch).filterMap (winnerFor batch)

/-- Outcome of merging a batch: final table, per-entity actions, and the
total number of row writes. -/
structure BatchOutcome where
  table : HTable
  actions : List (String × MergeAction)
  writes : Nat
deriving Repr

/-- Merge a list of (already de-duplicated) snapshots in order. -/
def mergeList (t : HTable) : List Snapshot → BatchOutcome
  | [] => { table := t, actions := [], writes := 0 }
  | s :: rest =>
    let st := mergeOne t s
    let o := mergeList st.table rest
    { table := o.table
      actions := (s.entity_id, st.action) :: o.actions
      writes := st.writes + o.writes }

/-- Modelled from the spec: the History Merger over one batch (§4.2):
discard stale duplicates per entity, then merge each entity's winning
snapshot (per-entity merges are independent; a sequential order realises
the per-entity serialization of §5). -/
def mergeBatch (t : HTable) (batch : List Snapshot) : BatchOutcome :=
  mergeList t (winners batch)

/-- A snapshot is settled in a table when merging it again writes
nothing: the entity has a current row, and the snapshot is either stale
against it or agrees with it (monitored fields equal and deletion flag
consistent with the snapshot's activity). -/
def Settled (t : HTable) (s : Snapshot) : Prop :=
  ∃ c, currentOf t s.entity_id = some c ∧
    (s.observed_at < c.valid_from ∨
      (c.valid_from ≤ s.observed_at ∧ fieldsEq s c = true ∧ c.is_deleted = !s.active))

/-- A snapshot of a never-seen entity that the source already reports
inactive. -/
def freshInactive : Snapshot :=
  { entity_id := "E1", division := some "Sales", audit_phase := some "P1",
    observed_at := 1, active := false }

/-- The same first-time snapshot with the entity still active. -/
def freshActive : Snapshot :=
  { entity_id := "E1", division := some "Sales", audit_phase := some "P1",
    observed_at := 1, active := true }

end ScdMerge

/-! ## Theorems -/

namespace PipelineValidator

/-- Folding `+` over mapped values is the sum of the mapped list. -/
theorem foldr_add_eq_sum_map {α : Type} (f : α → Nat) (l : List α) :
    l.foldr (fun u acc => f u + acc) 0 = (l.map f).sum := by
  induction l with
  | nil => rfl
  | cons x xs ih => simp [ih]

/-- Pointwise sums of two mapped lists add up. -/
theorem sum_map_add {α : Type} (f g : α → Nat) (l : List α) :
    (l.map f).sum + (l.map g).sum = (l.map (fun x => f x + g x)).sum := by
  induction l with
  | nil => rfl
  | cons x xs ih => simp only [List.map_cons, List.sum_cons, ← ih]; omega

/-- The `gap_in_history` scan counts exactly the adjacent pairs whose
dates differ with a non-current later row. -/
theorem gapCount_eq_countP : ∀ vs : List ScdRow,
    gapCount vs = (adjacentPairs vs).countP
      (fun p => decide (p.2.update_date ≠ p.1.update_date ∧ p.2.is_current = false))
  | [] => rfl
  | [_] => rfl
  | p :: c :: rest => by
    have ih := gapCount_eq_countP (c :: rest)
    simp only [gapCount, adjacentPairs, List.tail_cons, List.zip_cons_cons,
      List.countP_cons] at ih ⊢
    rw [ih]
    by_cases h : c.update_date ≠ p.update_date ∧ c.is_current = false <;>
      simp [h, Nat.add_comm]

/-- The `current_flag_issue` scan counts exactly the non-final current
rows. -/
theorem currentFlagCount_eq_countP : ∀ vs : List ScdRow,
    currentFlagCount vs = vs.dropLast.countP (fun r => r.is_current)
  | [] => rfl
  | [_] => rfl
  | c :: d :: rest => by
    have ih := currentFlagCount_eq_countP (d :: rest)
    simp only [currentFlagCount, List.dropLast_cons₂, List.countP_cons] at ih ⊢
    rw [ih]
    by_cases h : c.is_current <;> simp [h, Nat.add_comm]

end PipelineValidator

namespace PipelineValidator

/-- Length of a `filterMap` by a guarded `some` is a `countP`. -/
theorem length_filterMap_guard {α β : Type} (l : List α) (p : α → Prop)
    [DecidablePred p] (g : α → β) :
    (l.filterMap (fun a => if p a then some (g a) else none)).length
      = l.countP (fun a => decide (p a)) := by
  induction l with
  | nil => rfl
  | cons x xs ih =>
    by_cases h : p x <;>
      simp [List.filterMap_cons, List.countP_cons, h, ih]

/-- A `filterMap` over a duplicate-free list that hits exactly one
element yields exactly that element's image. -/
theorem filterMap_nodup_singleton {α β : Type} {l : List α} {f : α → Option β}
    {a : α} {b : β} (hnd : l.Nodup) (ha : a ∈ l) (hfa : f a = some b)
    (hother : ∀ x ∈ l, x ≠ a → f x = none) :
    l.filterMap f = [b] := by
  induction l with
  | nil => cases ha
  | cons x xs ih =>
    rcases List.nodup_cons.mp hnd with ⟨hx, hxs⟩
    by_cases hxa : x = a
    · subst hxa
      have hrest : xs.filterMap f = [] := by
        rw [List.filterMap_eq_nil_iff]
        intro y hy
        exact hother y (List.mem_cons_of_mem _ hy) (fun e => hx (e ▸ hy))
      simp [List.filterMap_cons, hfa, hrest]
    · have hfx : f x = none := hother x (List.mem_cons_self _ _) hxa
      have ha' : a ∈ xs := by
        rcases List.mem_cons.mp ha with h | h
        · exact absurd h.symm hxa
        · exact h
      rw [List.filterMap_cons, hfx]
      exact ih hxs ha' (fun y hy hne => hother y (List.mem_cons_of_mem _ hy) hne)

/-- Unfolds `uniqGroups` to the guarded-`filterMap` shape. -/
theorem uniqGroups_eq (table : List ScdRow) :
    uniqGroups table
      = ((currentRows table).map (fun r => r.user_id)).dedup.filterMap
          (fun u =>
            if 1 < ((currentRows table).map (fun r => r.user_id)).count u then
              some (u, ((currentRows table).map (fun r => r.user_id)).count u)
            else none) := rfl

end PipelineValidator

namespace PipelineValidator

/-- **C2** (counterexample): for a table whose entity `E1` has one
non-deleted version and zero current rows, the claim says the
current-uniqueness check flags `E1`, but `validate_scd_current_uniqueness`
reports no violation (its query keeps only `is_current = true` rows and
`HAVING COUNT(*) > 1` never sees zero-current entities). -/
theorem uniqueness_zero_current_not_flagged_cex :
    claimUniquenessFlagged zeroCurrentTable = ["E1"]
    ∧ (validate_scd_current_uniqueness zeroCurrentTable).passed = true
    ∧ (validate_scd_current_uniqueness zeroCurrentTable).error_count = 0 := by
  decide

/-- **C2** (amended): the current-uniqueness check flags exactly the
entity ids with more than one `is_current = true, is_deleted = false` row
(`error_count` is their number), and it passes iff no entity has two or
more such rows; entities with zero current rows are never flagged. -/
theorem uniqueness_flags_exactly_duplicate_groups (table : List ScdRow) :
    ((validate_scd_current_uniqueness table).error_count
      = ((currentRows table).map (fun r => r.user_id)).dedup.countP
          (fun u => decide (1 < ((currentRows table).map (fun r => r.user_id)).count u)))
    ∧ ((validate_scd_current_uniqueness table).passed = true
      ↔ ∀ u ∈ (currentRows table).map (fun r => r.user_id),
          ((currentRows table).map (fun r => r.user_id)).count u ≤ 1) := by
  have hcount : (validate_scd_current_uniqueness table).error_count
      = ((currentRows table).map (fun r => r.user_id)).dedup.countP
          (fun u => decide (1 < ((currentRows table).map (fun r => r.user_id)).count u)) := by
    show (uniqGroups table).length = _
    rw [uniqGroups_eq, length_filterMap_guard]
  refine ⟨hcount, ?_⟩
  show ((uniqGroups table).length == 0) = true ↔ _
  rw [beq_iff_eq]
  have hlen : (uniqGroups table).length
      = ((currentRows table).map (fun r => r.user_id)).dedup.countP
          (fun u => decide (1 < ((currentRows table).map (fun r => r.user_id)).count u)) := by
    rw [uniqGroups_eq, length_filterMap_guard]
  rw [hlen, List.countP_eq_zero]
  constructor
  · intro h u hu
    have := h u (List.mem_dedup.mpr hu)
    simpa using this
  · intro h u hu
    have := h u (List.mem_dedup.mp hu)
    simpa using this

end PipelineValidator

namespace PipelineValidator

/-- **C3** (counterexample): on a perfectly contiguous three-version
history (strictly increasing `update_date`s, single final current row)
the claim's description of the temporal-continuity check yields no
violation, yet `validate_scd_historical_integrity` reports one
`gap_in_history` violation and fails — its gap rule flags every
non-current row whose `update_date` differs from its predecessor's, and
the table has no `valid_to` column the claim's comparison could read. -/
theorem historical_check_flags_contiguous_history_cex :
    claimTemporalViolationCount threeVersionTable = 0
    ∧ (validate_scd_historical_integrity threeVersionTable).error_count = 1
    ∧ (validate_scd_historical_integrity threeVersionTable).passed = false
    ∧ (validate_scd_historical_integrity threeVersionTable).integrity_issues
        = [("gap_in_history", 1)] := by
  decide

/-- **C3** (amended): the historical-integrity check orders each entity's
non-deleted versions by `update_date` and counts (a) every adjacent pair
whose later row has a different `update_date` and `is_current = false`
(`gap_in_history`) and (b) every non-final row with `is_current = true`
(`current_flag_issue`); it passes exactly when that total is zero. -/
theorem historical_integrity_error_count_characterization (table : List ScdRow) :
    ((validate_scd_historical_integrity table).error_count
      = ((entityIds table).map (fun u =>
          (adjacentPairs (entityVersions table u)).countP
            (fun p => decide (p.2.update_date ≠ p.1.update_date ∧ p.2.is_current = false))
          + (entityVersions table u).dropLast.countP (fun r => r.is_current))).sum)
    ∧ ((validate_scd_historical_integrity table).passed = true
      ↔ (validate_scd_historical_integrity table).error_count = 0) := by
  constructor
  · show histGapTotal table + histCurrentFlagTotal table = _
    rw [histGapTotal, histCurrentFlagTotal, foldr_add_eq_sum_map, foldr_add_eq_sum_map,
      sum_map_add]
    congr 1
    refine List.map_congr_left (fun u _ => ?_)
    rw [gapCount_eq_countP, currentFlagCount_eq_countP]
  · show ((histGapTotal table + histCurrentFlagTotal table == 0) = true) ↔ _
    rw [beq_iff_eq]
    exact Iff.rfl

end PipelineValidator

namespace PipelineValidator

/-- On the non-exception path, `validate_scd_integrity` records both
checks, stores their results, and computes the score from them. -/
theorem integrity_fields_ok (dbt : Option DbtPayload) (table : List ScdRow)
    (h : dbtOutcome dbt ≠ none) :
    (validate_scd_integrity dbt table).validations_performed
        = ["scd_current_uniqueness", "scd_historical_integrity"]
    ∧ (validate_scd_integrity dbt table).current_uniqueness
        = some (validate_scd_current_uniqueness table)
    ∧ (validate_scd_integrity dbt table).historical_integrity
        = some (validate_scd_historical_integrity table)
    ∧ (validate_scd_integrity dbt table).integrity_score
        = (detailsPassedCount (some (validate_scd_current_uniqueness table))
              (some (validate_scd_historical_integrity table)) : ℚ) / 2 * 100 := by
  rcases hdo : dbtOutcome dbt with _ | pe
  · exact absurd hdo h
  · unfold validate_scd_integrity
    rw [hdo]
    refine ⟨rfl, rfl, rfl, ?_⟩
    norm_num

end PipelineValidator

namespace PipelineValidator

/-- **C1**: on every run that completes without an exception, the
returned `integrity_score` equals the number of performed checks whose
recorded result passed, divided by the number of entries of
`validations_performed`, times 100. -/
theorem integrity_score_is_passed_fraction (dbt : Option DbtPayload) (table : List ScdRow)
    (h : dbtOutcome dbt ≠ none) :
    (validate_scd_integrity dbt table).integrity_score
      = (detailsPassedCount (validate_scd_integrity dbt table).current_uniqueness
            (validate_scd_integrity dbt table).historical_integrity : ℚ)
          / ((validate_scd_integrity dbt table).validations_performed.length : ℚ) * 100 := by
  obtain ⟨hp, hu, hh, hs⟩ := integrity_fields_ok dbt table h
  rw [hs, hu, hh, hp]
  norm_num

/-- Witness for `integrity_score_is_passed_fraction` at a concrete run. -/
theorem integrity_score_is_passed_fraction_witness :
    dbtOutcome none ≠ none
    ∧ (validate_scd_integrity none threeVersionTable).integrity_score
      = (detailsPassedCount (validate_scd_integrity none threeVersionTable).current_uniqueness
            (validate_scd_integrity none threeVersionTable).historical_integrity : ℚ)
          / ((validate_scd_integrity none threeVersionTable).validations_performed.length : ℚ)
          * 100 :=
  ⟨by decide, integrity_score_is_passed_fraction none threeVersionTable (by decide)⟩

/-- **C7**: `integrity_score` always lies in `[0, 100]`: on the
exception path it is exactly 0, otherwise it is the passed-checks ratio
times 100 with at most 2 of 2 checks passing. -/
theorem integrity_score_bounds (dbt : Option DbtPayload) (table : List ScdRow) :
    ((validate_scd_integrity dbt table).integrity_score
      = if dbtOutcome dbt = none then 0
        else (detailsPassedCount (some (validate_scd_current_uniqueness table))
              (some (validate_scd_historical_integrity table)) : ℚ) / 2 * 100)
    ∧ 0 ≤ (validate_scd_integrity dbt table).integrity_score
    ∧ (validate_scd_integrity dbt table).integrity_score ≤ 100 := by
  rcases hdo : dbtOutcome dbt with _ | pe
  · have h0 : (validate_scd_integrity dbt table).integrity_score = 0 := by
      unfold validate_scd_integrity
      rw [hdo]
    rw [h0]
    norm_num
  · have hne : dbtOutcome dbt ≠ none := by rw [hdo]; simp
    obtain ⟨hp, hu, hh, hs⟩ := integrity_fields_ok dbt table hne
    rw [hs]
    rw [if_neg (by simp : ¬(some pe : Option (Bool × Int)) = none)]
    have hdp : detailsPassedCount (some (validate_scd_current_uniqueness table))
        (some (validate_scd_historical_integrity table)) ≤ 2 := by
      show (if (validate_scd_current_uniqueness table).passed then 1 else 0)
          + (if (validate_scd_historical_integrity table).passed then 1 else 0) ≤ 2
      split_ifs <;> norm_num
    have hdpq : (detailsPassedCount (some (validate_scd_current_uniqueness table))
        (some (validate_scd_historical_integrity table)) : ℚ) ≤ 2 := by
      exact_mod_cast hdp
    have hdp0 : (0:ℚ) ≤ (detailsPassedCount (some (validate_scd_current_uniqueness table))
        (some (validate_scd_historical_integrity table)) : ℚ) := Nat.cast_nonneg _
    refine ⟨rfl, by linarith, by linarith⟩

end PipelineValidator

namespace PipelineValidator

/-- **C4** (counterexample): a completed run records exactly two checks —
`scd_current_uniqueness` and `scd_historical_integrity` — so
`validations_performed` cannot contain a check of each of the three kinds
the claim lists; no separate flag-consistency check exists. -/
theorem validator_two_checks_cex :
    (validate_scd_integrity none threeVersionTable).validations_performed
      = ["scd_current_uniqueness", "scd_historical_integrity"]
    ∧ ¬ 3 ≤ (validate_scd_integrity none threeVersionTable).validations_performed.length := by
  decide

/-- **C4** (amended): every run of `validate_scd_integrity` that reaches
the checks performs exactly the two checks `scd_current_uniqueness` and
`scd_historical_integrity` (the latter bundling the `gap_in_history` and
`current_flag_issue` rules); there is no third, separate flag-consistency
check. -/
theorem validator_performs_exactly_two_checks (dbt : Option DbtPayload)
    (table : List ScdRow) (h : dbtOutcome dbt ≠ none) :
    (validate_scd_integrity dbt table).validations_performed
      = ["scd_current_uniqueness", "scd_historical_integrity"] :=
  (integrity_fields_ok dbt table h).1

/-- Witness for `validator_performs_exactly_two_checks`. -/
theorem validator_performs_exactly_two_checks_witness :
    dbtOutcome none ≠ none
    ∧ (validate_scd_integrity none []).validations_performed
      = ["scd_current_uniqueness", "scd_historical_integrity"] :=
  ⟨by decide, validator_performs_exactly_two_checks none [] (by decide)⟩

end PipelineValidator

namespace PipelineValidator

/-- **C5** (Scenario E): if entity `e` has exactly two
`is_current = true, is_deleted = false` rows and every other entity has
at most one, the uniqueness check reports `error_count = 1` and the
integrity score of a completed run is strictly below 100. -/
theorem duplicate_current_entity_detected (dbt : Option DbtPayload)
    (table : List ScdRow) (e : String) (hdbt : dbtOutcome dbt ≠ none)
    (hcount : ((currentRows table).map (fun r => r.user_id)).count e = 2)
    (hother : ∀ u ∈ (currentRows table).map (fun r => r.user_id), u ≠ e →
      ((currentRows table).map (fun r => r.user_id)).count u ≤ 1) :
    (validate_scd_current_uniqueness table).error_count = 1
    ∧ (validate_scd_integrity dbt table).integrity_score < 100 := by
  have hmem : e ∈ (currentRows table).map (fun r => r.user_id) := by
    have h0 : 0 < ((currentRows table).map (fun r => r.user_id)).count e := by
      rw [hcount]; norm_num
    exact List.count_pos_iff.mp h0
  have hgroups : uniqGroups table = [(e, 2)] := by
    rw [uniqGroups_eq]
    refine filterMap_nodup_singleton (List.nodup_dedup _)
      (List.mem_dedup.mpr hmem) ?_ ?_
    · rw [hcount]
      norm_num
    · intro x hx hne
      have hxl := List.mem_dedup.mp hx
      have hle := hother x hxl hne
      rw [if_neg (by omega)]
  have herr : (validate_scd_current_uniqueness table).error_count = 1 := by
    show (uniqGroups table).length = 1
    rw [hgroups]
    rfl
  refine ⟨herr, ?_⟩
  obtain ⟨hp, hu, hh, hs⟩ := integrity_fields_ok dbt table hdbt
  rw [hs]
  have hpassed : (validate_scd_current_uniqueness table).passed = false := by
    show ((uniqGroups table).length == 0) = false
    rw [hgroups]
    rfl
  have hdp : detailsPassedCount (some (validate_scd_current_uniqueness table))
      (some (validate_scd_historical_integrity table)) ≤ 1 := by
    show (if (validate_scd_current_uniqueness table).passed then 1 else 0)
        + (if (validate_scd_historical_integrity table).passed then 1 else 0) ≤ 1
    rw [hpassed]
    split_ifs <;> simp_all
  have hdpq : (detailsPassedCount (some (validate_scd_current_uniqueness table))
      (some (validate_scd_historical_integrity table)) : ℚ) ≤ 1 := by
    exact_mod_cast hdp
  linarith

/-- Witness for `duplicate_current_entity_detected` on Scenario E's
table. -/
theorem duplicate_current_entity_detected_witness :
    dbtOutcome none ≠ none
    ∧ ((currentRows duplicateCurrentTable).map (fun r => r.user_id)).count "E1" = 2
    ∧ (∀ u ∈ (currentRows duplicateCurrentTable).map (fun r => r.user_id), u ≠ "E1" →
        ((currentRows duplicateCurrentTable).map (fun r => r.user_id)).count u ≤ 1)
    ∧ ((validate_scd_current_uniqueness duplicateCurrentTable).error_count = 1
        ∧ (validate_scd_integrity none duplicateCurrentTable).integrity_score < 100) :=
  ⟨by decide, by decide, by decide,
    duplicate_current_entity_detected none duplicateCurrentTable "E1"
      (by decide) (by decide) (by decide)⟩

end PipelineValidator

namespace PipelineValidator

/-- **C6**: the enumerated `details` sample is capped at 10 entries while
`error_count` counts every violating group; and whenever at least one
violation exists (a duplicate-current group or a historical-integrity
issue), the completed run's `integrity_score` is strictly below 100 —
the sampling cap never rounds the score back to 100. -/
theorem violations_never_silently_dropped (dbt : Option DbtPayload)
    (table : List ScdRow) (hdbt : dbtOutcome dbt ≠ none)
    (hviol : uniqGroups table ≠ []
      ∨ histGapTotal table + histCurrentFlagTotal table ≠ 0) :
    (validate_scd_current_uniqueness table).details.length ≤ 10
    ∧ (validate_scd_current_uniqueness table).error_count = (uniqGroups table).length
    ∧ (validate_scd_integrity dbt table).integrity_score < 100 := by
  refine ⟨?_, rfl, ?_⟩
  · show ((uniqGroups table).take 10).length ≤ 10
    rw [List.length_take]
    exact min_le_left _ _
  · obtain ⟨hp, hu, hh, hs⟩ := integrity_fields_ok dbt table hdbt
    rw [hs]
    have hdp : detailsPassedCount (some (validate_scd_current_uniqueness table))
        (some (validate_scd_historical_integrity table)) ≤ 1 := by
      show (if (validate_scd_current_uniqueness table).passed then 1 else 0)
          + (if (validate_scd_historical_integrity table).passed then 1 else 0) ≤ 1
      rcases hviol with hv | hv
      · have hpassed : (validate_scd_current_uniqueness table).passed = false := by
          show ((uniqGroups table).length == 0) = false
          simp [List.length_eq_zero, hv]
        rw [hpassed]
        split_ifs <;> simp_all
      · have hpassed : (validate_scd_historical_integrity table).passed = false := by
          show ((histGapTotal table + histCurrentFlagTotal table == 0)) = false
          simp [hv]
        rw [hpassed]
        split_ifs <;> simp_all
    have hdpq : (detailsPassedCount (some (validate_scd_current_uniqueness table))
        (some (validate_scd_historical_integrity table)) : ℚ) ≤ 1 := by
      exact_mod_cast hdp
    linarith

/-- Witness for `violations_never_silently_dropped` on a table with one
duplicate-current entity. -/
theorem violations_never_silently_dropped_witness :
    dbtOutcome none ≠ none
    ∧ (uniqGroups duplicateCurrentTable ≠ []
        ∨ histGapTotal duplicateCurrentTable + histCurrentFlagTotal duplicateCurrentTable ≠ 0)
    ∧ ((validate_scd_current_uniqueness duplicateCurrentTable).details.length ≤ 10
        ∧ (validate_scd_current_uniqueness duplicateCurrentTable).error_count
            = (uniqGroups duplicateCurrentTable).length
        ∧ (validate_scd_integrity none duplicateCurrentTable).integrity_score < 100) :=
  ⟨by decide, by decide,
    violations_never_silently_dropped none duplicateCurrentTable (by decide) (by decide)⟩

end PipelineValidator

namespace PipelineValidator

/-- **C10**: for every event whose validation type is neither
`glue_job_results` nor `scd_integrity`, `lambda_handler` returns
`validation_passed = false` with an error naming the unknown type, and
still populates `validation_type`, `execution_id`, `environment` and
`validated_at`; and the handler's `except` branch (the only other way
out, taken if the body could raise) also returns a
`validation_passed = false` dict, so no exception propagates. -/
theorem unknown_validation_type_result (ev : ValidatorEvent) (raw : List RawRow)
    (scdTable : List ScdRow) (now : String)
    (hg : ev.validation_type.getD "unknown" ≠ "glue_job_results")
    (hs : ev.validation_type.getD "unknown" ≠ "scd_integrity") :
    ((lambda_handler ev raw scdTable now).validation_passed = false
    ∧ (lambda_handler ev raw scdTable now).error
        = some ("Unknown validation type: " ++ ev.validation_type.getD "unknown")
    ∧ (lambda_handler ev raw scdTable now).validation_type
        = some (ev.validation_type.getD "unknown")
    ∧ (lambda_handler ev raw scdTable now).execution_id
        = some (ev.execution_id.getD "unknown")
    ∧ (lambda_handler ev raw scdTable now).environment
        = some (ev.environment.getD DEFAULT_ENVIRONMENT)
    ∧ (lambda_handler ev raw scdTable now).validated_at = some now)
    ∧ (∀ e, (lambda_handler_error_result e ev).validation_passed = false) := by
  have hg' : (ev.validation_type.getD "unknown" == "glue_job_results") = false :=
    beq_eq_false_iff_ne.mpr hg
  have hs' : (ev.validation_type.getD "unknown" == "scd_integrity") = false :=
    beq_eq_false_iff_ne.mpr hs
  refine ⟨?_, fun e => rfl⟩
  unfold lambda_handler lambda_handler_try
  simp [hg', hs']

/-- Witness for `unknown_validation_type_result` on a concrete event. -/
theorem unknown_validation_type_result_witness :
    (sampleUnknownEvent.validation_type.getD "unknown" ≠ "glue_job_results")
    ∧ (sampleUnknownEvent.validation_type.getD "unknown" ≠ "scd_integrity")
    ∧ (((lambda_handler sampleUnknownEvent [] [] "t0").validation_passed = false
    ∧ (lambda_handler sampleUnknownEvent [] [] "t0").error
        = some ("Unknown validation type: "
            ++ sampleUnknownEvent.validation_type.getD "unknown")
    ∧ (lambda_handler sampleUnknownEvent [] [] "t0").validation_type
        = some (sampleUnknownEvent.validation_type.getD "unknown")
    ∧ (lambda_handler sampleUnknownEvent [] [] "t0").execution_id
        = some (sampleUnknownEvent.execution_id.getD "unknown")
    ∧ (lambda_handler sampleUnknownEvent [] [] "t0").environment
        = some (sampleUnknownEvent.environment.getD DEFAULT_ENVIRONMENT)
    ∧ (lambda_handler sampleUnknownEvent [] [] "t0").validated_at = some "t0")
    ∧ (∀ e, (lambda_handler_error_result e sampleUnknownEvent).validation_passed
        = false)) :=
  ⟨by decide, by decide,
    unknown_validation_type_result sampleUnknownEvent [] [] "t0"
      (by decide) (by decide)⟩

end PipelineValidator

namespace ErrorHandler

/-- An unknown error-type string finds nothing in the handlers dict. -/
theorem handlers_lookup_none (et : String) (h : et ∉ knownErrorTypes) :
    handlers.lookup et = none := by
  simp only [knownErrorTypes, List.mem_cons, List.not_mem_nil, or_false, not_or] at h
  obtain ⟨h1, h2, h3, h4, h5, h6⟩ := h
  have b1 := beq_eq_false_iff_ne.mpr h1
  have b2 := beq_eq_false_iff_ne.mpr h2
  have b3 := beq_eq_false_iff_ne.mpr h3
  have b4 := beq_eq_false_iff_ne.mpr h4
  have b5 := beq_eq_false_iff_ne.mpr h5
  have b6 := beq_eq_false_iff_ne.mpr h6
  simp [handlers, List.lookup, b1, b2, b3, b4, b5, b6]

/-- **C9**: error dispatch is total over the closed taxonomy — each of
the six known error-type strings is dispatched to the handler whose
`error_category` equals that string, and any other string (the empty
string included) falls back to `handle_unknown_error`, whose result has
`error_category = "unknown_error"`; `get_error_handler` is a total
function and never raises. -/
theorem error_dispatch_total (ev : ErrEvent) (env : String) :
    ((get_error_handler "glue_job_failure" ev env).error_category = "glue_job_failure"
    ∧ (get_error_handler "validation_failure" ev env).error_category = "validation_failure"
    ∧ (get_error_handler "data_quality_failure" ev env).error_category = "data_quality_failure"
    ∧ (get_error_handler "dbt_run_failure" ev env).error_category = "dbt_run_failure"
    ∧ (get_error_handler "dbt_test_failure" ev env).error_category = "dbt_test_failure"
    ∧ (get_error_handler "scd_validation_failure" ev env).error_category
        = "scd_validation_failure")
    ∧ ∀ et : String, et ∉ knownErrorTypes →
        get_error_handler et = handle_unknown_error
        ∧ (get_error_handler et ev env).error_category = "unknown_error" := by
  refine ⟨⟨rfl, rfl, rfl, rfl, rfl, rfl⟩, fun et h => ?_⟩
  have hl : get_error_handler et = handle_unknown_error := by
    unfold get_error_handler
    rw [handlers_lookup_none et h]
  exact ⟨hl, by rw [hl]; rfl⟩

/-- Witness for `error_dispatch_total`'s fallback clause at a concrete
unknown error type. -/
theorem error_dispatch_total_witness :
    ("not_a_known_failure" ∉ knownErrorTypes)
    ∧ (get_error_handler "not_a_known_failure" sampleErrEvent "dev").error_category
        = "unknown_error" :=
  ⟨by decide,
    ((error_dispatch_total sampleErrEvent "dev").2 "not_a_known_failure" (by decide)).2⟩

end ErrorHandler

namespace ScdMerge

/-- Helper: `pickLatest` returns an element of its input. -/
theorem pickLatest_mem : ∀ {l : List Snapshot} {s : Snapshot},
    pickLatest l = some s → s ∈ l
  | [], _, h => by simp [pickLatest] at h
  | x :: rest, s, h => by
    rw [pickLatest] at h
    rcases hr : pickLatest rest with _ | b
    · rw [hr] at h
      simp only [Option.some.injEq] at h
      exact h ▸ List.mem_cons_self _ _
    · rw [hr] at h
      simp only [Option.some.injEq] at h
      by_cases hb : b.observed_at > x.observed_at
      · rw [if_pos hb] at h
        exact List.mem_cons_of_mem _ (h ▸ pickLatest_mem hr)
      · rw [if_neg hb] at h
        exact h ▸ List.mem_cons_self _ _

/-- A winner for an entity id carries that id. -/
theorem winnerFor_eid {batch : List Snapshot} {eid : String} {s : Snapshot}
    (h : winnerFor batch eid = some s) : s.entity_id = eid := by
  have hm := pickLatest_mem h
  have := List.mem_filter.mp hm
  simpa using this.2

/-- A winner is a batch element. -/
theorem winnerFor_mem {batch : List Snapshot} {eid : String} {s : Snapshot}
    (h : winnerFor batch eid = some s) : s ∈ batch :=
  (List.mem_filter.mp (pickLatest_mem h)).1

/-- Every winner comes from the batch. -/
theorem winners_mem {batch : List Snapshot} {s : Snapshot}
    (h : s ∈ winners batch) : s ∈ batch := by
  obtain ⟨eid, _, heq⟩ := List.mem_filterMap.mp h
  exact winnerFor_mem heq

/-- Ids of mapped `filterMap` images live in the source list. -/
theorem mem_of_mem_map_filterMap {α β : Type} {l : List α} {f : α → Option β}
    {key : β → α} (hk : ∀ a b, f a = some b → key b = a) {y : α}
    (hy : y ∈ (l.filterMap f).map key) : y ∈ l := by
  obtain ⟨b, hb, hkey⟩ := List.mem_map.mp hy
  obtain ⟨a, ha, hfa⟩ := List.mem_filterMap.mp hb
  exact (hkey ▸ hk a b hfa : y = a) ▸ ha

/-- A `filterMap` over a duplicate-free list keeps its keys
duplicate-free, when each image's key is its source element. -/
theorem nodup_map_key_filterMap {α β : Type} {l : List α} {f : α → Option β}
    {key : β → α} (hk : ∀ a b, f a = some b → key b = a) (h : l.Nodup) :
    ((l.filterMap f).map key).Nodup := by
  induction l with
  | nil => simp
  | cons x xs ih =>
    rcases List.nodup_cons.mp h with ⟨hx, hxs⟩
    rw [List.filterMap_cons]
    rcases hfx : f x with _ | b
    · exact ih hxs
    · rw [List.map_cons, List.nodup_cons]
      refine ⟨fun hmem => ?_, ih hxs⟩
      have := mem_of_mem_map_filterMap hk hmem
      rw [hk x b hfx] at this
      exact hx this

/-- The winners of a batch carry pairwise distinct entity ids. -/
theorem winners_ids_nodup (batch : List Snapshot) :
    ((winners batch).map (fun s => s.entity_id)).Nodup :=
  nodup_map_key_filterMap (fun _ _ h => winnerFor_eid h) (List.nodup_dedup _)

end ScdMerge


namespace ScdMerge

/-- Helper: `find?` ignores a mapping step that leaves its predicate and every
matching element intact. -/
theorem find?_map_of_pred_eq {α : Type} (f : α → α) (p : α → Bool) (l : List α)
    (hpres : ∀ a, p (f a) = p a) (hfix : ∀ a, p a = true → f a = a) :
    (l.map f).find? p = l.find? p := by
  induction l with
  | nil => rfl
  | cons x xs ih =>
    rw [List.map_cons]
    by_cases hx : p x = true
    · rw [List.find?_cons_of_pos _ (by rw [hpres]; exact hx),
        List.find?_cons_of_pos _ hx, hfix x hx]
    · rw [List.find?_cons_of_neg _ (by rw [hpres]; simpa using hx),
        List.find?_cons_of_neg _ (by simpa using hx)]
      exact ih

/-- Appending a row of a different entity does not change an entity's
current row. -/
theorem currentOf_append_other {t : HTable} {v : Version} {eid : String}
    (h : v.entity_id ≠ eid) :
    currentOf (t ++ [v]) eid = currentOf t eid := by
  unfold currentOf
  rw [List.find?_append]
  rcases hf : t.find? (fun w => w.entity_id == eid && w.is_current) with _ | c
  · rw [hf]
    show List.find? (fun w => w.entity_id == eid && w.is_current) [v] = none
    rw [List.find?_eq_none]
    intro x hx
    simp only [List.mem_singleton] at hx
    subst hx
    simp [beq_eq_false_iff_ne.mpr h]
  · rw [hf]
    rfl

/-- Closing one entity's current rows does not change another entity's
current row. -/
theorem currentOf_closeEntity_other {t : HTable} {e : String} {ts : Nat}
    {eid : String} (h : e ≠ eid) :
    currentOf (closeEntity t e ts) eid = currentOf t eid := by
  unfold currentOf closeEntity
  apply find?_map_of_pred_eq
  · intro a
    by_cases ha : (a.entity_id == e && a.is_current) = true
    · rw [if_pos ha]
      have hae : a.entity_id = e := beq_iff_eq.mp ((Bool.and_eq_true _ _).mp ha).1
      simp [hae, beq_eq_false_iff_ne.mpr h]
    · rw [if_neg ha]
  · intro a hpa
    have hae : a.entity_id = eid := beq_iff_eq.mp ((Bool.and_eq_true _ _).mp hpa).1
    rw [if_neg]
    rw [hae]
    simp [beq_eq_false_iff_ne.mpr (Ne.symm h)]

/-- After `closeEntity`, the entity has no current row left. -/
theorem currentOf_closeEntity_self (t : HTable) (e : String) (ts : Nat) :
    currentOf (closeEntity t e ts) e = none := by
  unfold currentOf closeEntity
  rw [List.find?_eq_none]
  intro x hx
  obtain ⟨y, hy, hxy⟩ := List.mem_map.mp hx
  by_cases hyc : (y.entity_id == e && y.is_current) = true
  · rw [if_pos hyc] at hxy
    subst hxy
    simp
  · rw [if_neg hyc] at hxy
    subst hxy
    simpa using hyc

end ScdMerge

namespace ScdMerge

/-- The Change Detector yields `UNCHANGED` exactly when the monitored
fields match and the stored deletion flag already mirrors the snapshot's
activity. -/
theorem classify_unchanged_iff (s : Snapshot) (c : Version) :
    classify s (some c) = .UNCHANGED
      ↔ (fieldsEq s c = true ∧ c.is_deleted = !s.active) := by
  unfold classify
  cases hd : c.is_deleted <;> cases ha : s.active <;>
    by_cases hf : fieldsEq s c = true <;> simp [hd, ha, hf]

/-- Merging a settled snapshot writes nothing and leaves the table
unchanged. -/
theorem settled_noop {t : HTable} {s : Snapshot} (h : Settled t s) :
    (mergeOne t s).table = t ∧ (mergeOne t s).writes = 0
    ∧ ((mergeOne t s).action = MergeAction.staleDiscarded
        ∨ (mergeOne t s).action = MergeAction.classified .UNCHANGED) := by
  obtain ⟨c, hc, hcase⟩ := h
  rcases hcase with hstale | ⟨hle, hfe, hdel⟩
  · simp [mergeOne, hc, hstale]
  · have hcl : classify s (some c) = .UNCHANGED :=
      (classify_unchanged_iff s c).mpr ⟨hfe, hdel⟩
    have hns : ¬ s.observed_at < c.valid_from := by omega
    simp [mergeOne, hc, hns, hcl]

/-- After closing the entity and inserting the snapshot's version, the
snapshot is settled. -/
theorem settled_after_close_insert (t : HTable) (s : Snapshot) :
    Settled (closeEntity t s.entity_id s.observed_at
      ++ [newVersionOf s (!s.active)]) s := by
  refine ⟨newVersionOf s (!s.active), ?_,
    Or.inr ⟨le_refl _, by simp [fieldsEq, newVersionOf], by simp [newVersionOf]⟩⟩
  unfold currentOf
  rw [List.find?_append]
  have hnone := currentOf_closeEntity_self t s.entity_id s.observed_at
  unfold currentOf at hnone
  rw [hnone]
  simp [List.find?, newVersionOf]

/-- A never-seen entity is only inserted settled when its snapshot is
active; any other non-stale merge leaves the snapshot settled as well. -/
theorem mergeOne_settles {t : HTable} {s : Snapshot}
    (h : currentOf t s.entity_id = none → s.active = true) :
    Settled (mergeOne t s).table s := by
  rcases hc : currentOf t s.entity_id with _ | c
  · have hact := h hc
    have htab : (mergeOne t s).table = t ++ [newVersionOf s false] := by
      simp [mergeOne, hc]
    rw [htab]
    refine ⟨newVersionOf s false, ?_,
      Or.inr ⟨le_refl _, by simp [fieldsEq, newVersionOf], by simp [newVersionOf, hact]⟩⟩
    unfold currentOf
    rw [List.find?_append]
    have hc' : t.find? (fun v => v.entity_id == s.entity_id && v.is_current) = none := hc
    rw [hc']
    simp [List.find?, newVersionOf]
  · by_cases hst : s.observed_at < c.valid_from
    · have htab : (mergeOne t s).table = t := by simp [mergeOne, hc, hst]
      rw [htab]
      exact ⟨c, hc, Or.inl hst⟩
    · cases hcl : classify s (some c) with
      | NEW =>
        exfalso
        simp only [classify] at hcl
        split_ifs at hcl
      | UNCHANGED =>
        obtain ⟨hfe, hdel⟩ := (classify_unchanged_iff s c).mp hcl
        have htab : (mergeOne t s).table = t := by simp [mergeOne, hc, hst, hcl]
        rw [htab]
        exact ⟨c, hc, Or.inr ⟨by omega, hfe, hdel⟩⟩
      | CHANGED =>
        have htab : (mergeOne t s).table
            = closeEntity t s.entity_id s.observed_at ++ [newVersionOf s (!s.active)] := by
          simp [mergeOne, hc, hst, hcl]
        rw [htab]
        exact settled_after_close_insert t s
      | REACTIVATED =>
        have htab : (mergeOne t s).table
            = closeEntity t s.entity_id s.observed_at ++ [newVersionOf s (!s.active)] := by
          simp [mergeOne, hc, hst, hcl]
        rw [htab]
        exact settled_after_close_insert t s
      | DEACTIVATED =>
        have htab : (mergeOne t s).table
            = closeEntity t s.entity_id s.observed_at ++ [newVersionOf s (!s.active)] := by
          simp [mergeOne, hc, hst, hcl]
        rw [htab]
        exact settled_after_close_insert t s

/-- Merging one snapshot does not change another entity's current row. -/
theorem mergeOne_currentOf_other {t : HTable} {s : Snapshot} {eid : String}
    (h : s.entity_id ≠ eid) :
    currentOf (mergeOne t s).table eid = currentOf t eid := by
  rcases hc : currentOf t s.entity_id with _ | c
  · have htab : (mergeOne t s).table = t ++ [newVersionOf s false] := by
      simp [mergeOne, hc]
    rw [htab, currentOf_append_other (show (newVersionOf s false).entity_id ≠ eid from h)]
  · by_cases hst : s.observed_at < c.valid_from
    · have htab : (mergeOne t s).table = t := by simp [mergeOne, hc, hst]
      rw [htab]
    · cases hcl : classify s (some c) with
      | NEW =>
        exfalso
        simp only [classify] at hcl
        split_ifs at hcl
      | UNCHANGED =>
        have htab : (mergeOne t s).table = t := by simp [mergeOne, hc, hst, hcl]
        rw [htab]
      | CHANGED =>
        have htab : (mergeOne t s).table
            = closeEntity t s.entity_id s.observed_at ++ [newVersionOf s (!s.active)] := by
          simp [mergeOne, hc, hst, hcl]
        rw [htab,
          currentOf_append_other (show (newVersionOf s (!s.active)).entity_id ≠ eid from h),
          currentOf_closeEntity_other h]
      | REACTIVATED =>
        have htab : (mergeOne t s).table
            = closeEntity t s.entity_id s.observed_at ++ [newVersionOf s (!s.active)] := by
          simp [mergeOne, hc, hst, hcl]
        rw [htab,
          currentOf_append_other (show (newVersionOf s (!s.active)).entity_id ≠ eid from h),
          currentOf_closeEntity_other h]
      | DEACTIVATED =>
        have htab : (mergeOne t s).table
            = closeEntity t s.entity_id s.observed_at ++ [newVersionOf s (!s.active)] := by
          simp [mergeOne, hc, hst, hcl]
        rw [htab,
          currentOf_append_other (show (newVersionOf s (!s.active)).entity_id ≠ eid from h),
          currentOf_closeEntity_other h]

end ScdMerge

namespace ScdMerge

/-- Settledness only depends on the entity's current row. -/
theorem settled_of_currentOf_eq {t t' : HTable} {s : Snapshot}
    (he : currentOf t' s.entity_id = currentOf t s.entity_id)
    (h : Settled t s) : Settled t' s := by
  obtain ⟨c, hc, hrest⟩ := h
  exact ⟨c, by rw [he]; exact hc, hrest⟩

/-- Merging snapshots of other entities does not change an entity's
current row. -/
theorem mergeList_currentOf_frame : ∀ (ws : List Snapshot) (t : HTable) (eid : String),
    (∀ r ∈ ws, r.entity_id ≠ eid) →
    currentOf (mergeList t ws).table eid = currentOf t eid
  | [], _, _, _ => rfl
  | w :: rest, t, eid, h => by
    show currentOf (mergeList (mergeOne t w).table rest).table eid = _
    rw [mergeList_currentOf_frame rest _ eid
        (fun r hr => h r (List.mem_cons_of_mem _ hr)),
      mergeOne_currentOf_other (h w (List.mem_cons_self _ _))]

/-- After a pass over snapshots with pairwise distinct entity ids, in
which every first-seen entity arrives active, every snapshot of the pass
is settled in the resulting table. -/
theorem mergeList_settles : ∀ (ws : List Snapshot) (t : HTable),
    ((ws.map (fun s => s.entity_id)).Nodup) →
    (∀ s ∈ ws, currentOf t s.entity_id = none → s.active = true) →
    ∀ s ∈ ws, Settled (mergeList t ws).table s
  | [], _, _, _, s, hs => absurd hs (List.not_mem_nil s)
  | w :: rest, t, hnd, hact, s, hs => by
    rw [List.map_cons, List.nodup_cons] at hnd
    obtain ⟨hw_notin, hnd'⟩ := hnd
    have hdiff : ∀ r ∈ rest, r.entity_id ≠ w.entity_id := by
      intro r hr heq
      exact hw_notin (heq ▸ List.mem_map_of_mem _ hr)
    rcases List.mem_cons.mp hs with rfl | hs'
    · have h1 : Settled (mergeOne t s).table s :=
        mergeOne_settles (hact s (List.mem_cons_self _ _))
      show Settled (mergeList (mergeOne t s).table rest).table s
      exact settled_of_currentOf_eq
        (mergeList_currentOf_frame rest _ _ hdiff) h1
    · have hframe : ∀ r ∈ rest,
          currentOf (mergeOne t w).table r.entity_id = currentOf t r.entity_id :=
        fun r hr => mergeOne_currentOf_other (Ne.symm (hdiff r hr))
      have hact' : ∀ r ∈ rest,
          currentOf (mergeOne t w).table r.entity_id = none → r.active = true := by
        intro r hr hnone
        refine hact r (List.mem_cons_of_mem _ hr) ?_
        rw [← hframe r hr]
        exact hnone
      show Settled (mergeList (mergeOne t w).table rest).table s
      exact mergeList_settles rest _ hnd' hact' s hs'

/-- A pass over snapshots all settled in the table is a no-op: the table
is unchanged, zero rows are written, and every action is a stale discard
or an `UNCHANGED` classification. -/
theorem mergeList_noop : ∀ (ws : List Snapshot) (t : HTable),
    (∀ s ∈ ws, Settled t s) →
    (mergeList t ws).table = t ∧ (mergeList t ws).writes = 0
    ∧ ∀ p ∈ (mergeList t ws).actions,
        p.2 = MergeAction.staleDiscarded ∨ p.2 = MergeAction.classified .UNCHANGED
  | [], t, _ => ⟨rfl, rfl, by intro p hp; cases hp⟩
  | w :: rest, t, h => by
    obtain ⟨ht, hw, hact⟩ := settled_noop (h w (List.mem_cons_self _ _))
    have hrest : ∀ s ∈ rest, Settled (mergeOne t w).table s := by
      intro s hs
      rw [ht]
      exact h s (List.mem_cons_of_mem _ hs)
    obtain ⟨ht', hw', hact'⟩ := mergeList_noop rest (mergeOne t w).table hrest
    refine ⟨?_, ?_, ?_⟩
    · show (mergeList (mergeOne t w).table rest).table = t
      rw [ht', ht]
    · show (mergeOne t w).writes + (mergeList (mergeOne t w).table rest).writes = 0
      rw [hw, hw']
    · show ∀ p ∈ (w.entity_id, (mergeOne t w).action)
          :: (mergeList (mergeOne t w).table rest).actions, _
      intro p hp
      rcases List.mem_cons.mp hp with rfl | hp'
      · exact hact
      · exact hact' p hp'

end ScdMerge

namespace ScdMerge

/-- **C8** (counterexample): merging a batch containing a never-seen
inactive entity is not idempotent.  The first pass classifies the
snapshot `NEW` and inserts a non-deleted version (the spec fixes
`is_deleted = false` for `NEW`); the second pass classifies the same
snapshot `DEACTIVATED`, closes that version and inserts a deleted one —
two additional writes and a changed table, not an `UNCHANGED` no-op. -/
theorem merge_idempotence_cex :
    (mergeBatch (mergeBatch [] [freshInactive]).table [freshInactive]).writes = 2
    ∧ (mergeBatch (mergeBatch [] [freshInactive]).table [freshInactive]).actions
        = [("E1", MergeAction.classified .DEACTIVATED)]
    ∧ (mergeBatch (mergeBatch [] [freshInactive]).table [freshInactive]).table
        ≠ (mergeBatch [] [freshInactive]).table := by
  decide

/-- **C8** (amended): provided every entity without a current row
appears in the batch only with `active = true`, re-merging an identical
snapshot batch is idempotent: the second pass leaves the table
unchanged, performs zero writes, and every snapshot that reaches
classification is classified `UNCHANGED` (snapshots discarded as stale
are discarded again, not classified). -/
theorem merge_idempotent_for_active_new_entities (t : HTable)
    (batch : List Snapshot)
    (h : ∀ s ∈ batch, currentOf t s.entity_id = none → s.active = true) :
    (mergeBatch (mergeBatch t batch).table batch).table = (mergeBatch t batch).table
    ∧ (mergeBatch (mergeBatch t batch).table batch).writes = 0
    ∧ ∀ p ∈ (mergeBatch (mergeBatch t batch).table batch).actions,
        p.2 = MergeAction.staleDiscarded
        ∨ p.2 = MergeAction.classified .UNCHANGED := by
  have hn : ((winners batch).map (fun s => s.entity_id)).Nodup :=
    winners_ids_nodup batch
  have hw : ∀ s ∈ winners batch, currentOf t s.entity_id = none → s.active = true :=
    fun s hs => h s (winners_mem hs)
  have hsettled := mergeList_settles (winners batch) t hn hw
  exact mergeList_noop (winners batch) (mergeBatch t batch).table hsettled

/-- Witness for `merge_idempotent_for_active_new_entities` on a
single-snapshot batch of a new active entity. -/
theorem merge_idempotent_for_active_new_entities_witness :
    (∀ s ∈ [freshActive], currentOf [] s.entity_id = none → s.active = true)
    ∧ ((mergeBatch (mergeBatch [] [freshActive]).table [freshActive]).table
          = (mergeBatch [] [freshActive]).table
      ∧ (mergeBatch (mergeBatch [] [freshActive]).table [freshActive]).writes = 0
      ∧ ∀ p ∈ (mergeBatch (mergeBatch [] [freshActive]).table [freshActive]).actions,
          p.2 = MergeAction.staleDiscarded
          ∨ p.2 = MergeAction.classified .UNCHANGED) :=
  ⟨by decide, merge_idempotent_for_active_new_entities [] [freshActive] (by decide)⟩

end ScdMerge
